import Mathlib

/-!
Verification of the `graph/` persistence subsystem of the repository
(`src/graph/connection.py`, `src/graph/service.py`, `src/graph/repository.py`,
`src/graph/models.py`, `src/graph/exceptions.py`).

The Python code is shallowly embedded: exceptions become an inductive type,
`with_retry` becomes a fuelled loop that records the number of calls and the
backoff sleeps it performs, the service layer becomes explicit state passing
over a store model, and the Cypher queries issued by the repository become
executable functions over a finite property-graph model.
-/

namespace Spec2Proof

/-- The exception taxonomy visible to `graph/`: the neo4j driver exceptions
that `connection.py` imports, plus the `GraphError` subclasses declared in
`graph/exceptions.py`, plus pydantic's validation failure raised by the
models in `graph/models.py`. -/
inductive Exc where
  | serviceUnavailable
  | sessionExpired
  | transientError
  | osError
  | clientError
  | authError
  | queryError (cause : Exc)
  | graphConnectionError (cause : Exc)
  | nodeNotFoundError
  | relationshipNotFoundError
  | duplicateNodeError
  | invalidFilterError
  | validationError
  deriving DecidableEq, Repr

/-- `_RETRYABLE_EXCEPTIONS` in `connection.py`:
`(ServiceUnavailable, SessionExpired, TransientError, OSError)`. -/
def isRetryable : Exc → Bool
  | .serviceUnavailable => true
  | .sessionExpired => true
  | .transientError => true
  | .osError => true
  | _ => false

/-- One call of the wrapped function: it either returns a value or raises. -/
inductive CallResult (α : Type) where
  | ok (v : α)
  | raises (e : Exc)
  deriving DecidableEq, Repr

/-- What the `with_retry` wrapper does in the end: return the wrapped
function's value, raise `GraphConnectionError` wrapping the last retryable
cause, or let a non-retryable exception propagate. -/
inductive RetryOutcome (α : Type) where
  | success (v : α)
  | connError (cause : Option Exc)
  | propagated (e : Exc)
  deriving DecidableEq, Repr

/-- Observable behaviour of one `with_retry`-wrapped invocation: the outcome,
how many times the wrapped function was called, and the list of delays passed
to `time.sleep`, in order. -/
structure RetryTrace (α : Type) where
  outcome : RetryOutcome α
  calls : Nat
  sleeps : List ℚ
  deriving DecidableEq, Repr

/-- The `for attempt in range(1, max_attempts + 1)` loop of `with_retry`
(`connection.py`), with the remaining number of attempts as fuel.  `delay`
starts at `base_delay` and is multiplied by `backoff_factor` after each
sleep; on the final attempt the loop breaks without sleeping and the wrapper
raises `GraphConnectionError` wrapping the last exception. -/
def retryLoop {α : Type} (fn : Nat → CallResult α) (backoff : ℚ) :
    Nat → ℚ → Nat → RetryTrace α
  | _, _, 0 => ⟨.connError none, 0, []⟩
  | attempt, delay, r + 1 =>
    match fn attempt with
    | .ok v => ⟨.success v, 1, []⟩
    | .raises e =>
      if isRetryable e then
        if r = 0 then ⟨.connError (some e), 1, []⟩
        else
          let rest := retryLoop fn backoff (attempt + 1) (delay * backoff) r
          ⟨rest.outcome, rest.calls + 1, delay :: rest.sleeps⟩
      else ⟨.propagated e, 1, []⟩

/-- `with_retry(max_attempts, base_delay, backoff_factor)` applied to a
function whose behaviour on the i-th call (1-based) is `fn i`. -/
def with_retry {α : Type} (maxAttempts : Nat) (baseDelay backoff : ℚ)
    (fn : Nat → CallResult α) : RetryTrace α :=
  retryLoop fn backoff 1 baseDelay maxAttempts

/-- C1: with `max_attempts = 3`, a function failing retryably on the first
two calls and succeeding on the third makes the wrapper return the third
call's value after exactly 3 calls and exactly two sleeps, the first of
`base_delay` and the second of `base_delay * backoff_factor`; a function
failing retryably on every call is called exactly 3 times and the wrapper
raises `GraphConnectionError` wrapping the last cause. -/
theorem with_retry_three_attempt_policy {α : Type}
    (fn g : Nat → CallResult α) (v : α) (e1 e2 : Exc) (err : Nat → Exc)
    (b f : ℚ)
    (h1 : fn 1 = .raises e1) (h2 : fn 2 = .raises e2) (h3 : fn 3 = .ok v)
    (hr1 : isRetryable e1 = true) (hr2 : isRetryable e2 = true)
    (hg : ∀ i, g i = .raises (err i))
    (hgr : ∀ i, isRetryable (err i) = true) :
    with_retry 3 b f fn = ⟨.success v, 3, [b, b * f]⟩ ∧
    with_retry 3 b f g = ⟨.connError (some (err 3)), 3, [b, b * f]⟩ := by
  constructor <;>
    simp [with_retry, retryLoop, h1, h2, h3, hr1, hr2, hg, hgr]

/-- Witness for C1 at a concrete function, base delay 1 and factor 2. -/
theorem with_retry_three_attempt_policy_witness :
    with_retry 3 1 2
      (fun i => if i ≤ 2 then CallResult.raises Exc.osError
                else CallResult.ok (7 : Nat)) =
      ⟨.success 7, 3, [1, 1 * 2]⟩ ∧
    with_retry 3 1 2
      (fun _ => (CallResult.raises Exc.serviceUnavailable : CallResult Nat)) =
      ⟨.connError (some Exc.serviceUnavailable), 3, [1, 1 * 2]⟩ :=
  with_retry_three_attempt_policy
    (fun i => if i ≤ 2 then CallResult.raises Exc.osError
              else CallResult.ok (7 : Nat))
    (fun _ => CallResult.raises Exc.serviceUnavailable)
    7 Exc.osError Exc.osError (fun _ => Exc.serviceUnavailable) 1 2
    rfl rfl rfl rfl rfl (fun _ => rfl) (fun _ => rfl)

/-! ## `execute_read` / `execute_write` (`connection.py`) -/

/-- The body of `execute_read` (identical for `execute_write`): the scoped
transaction either yields a value or raises; a `ClientError` is caught and
re-raised as `QueryError` wrapping it, every other exception propagates
unchanged to the retry wrapper. -/
def executeBody {α : Type} (run : CallResult α) : CallResult α :=
  match run with
  | .ok v => .ok v
  | .raises .clientError => .raises (.queryError .clientError)
  | .raises e => .raises e

/-- `execute_read` / `execute_write`: `executeBody` under
`@with_retry(max_attempts=3, base_delay=1.0)` (backoff factor defaults
to 2.0); `run i` is what the i-th transaction attempt does. -/
def execute_read {α : Type} (run : Nat → CallResult α) : RetryTrace α :=
  with_retry 3 1 2 (fun i => executeBody (run i))

/-- C4: when the first execution attempt raises a non-retryable store error
(`ClientError`), `execute_read`/`execute_write` raise `QueryError` wrapping
it immediately: exactly one call, no sleeps, no retry. -/
theorem execute_read_client_error_immediate {α : Type}
    (run : Nat → CallResult α) (h : run 1 = .raises .clientError) :
    execute_read run =
      ⟨.propagated (.queryError .clientError), 1, []⟩ := by
  simp [execute_read, with_retry, retryLoop, executeBody, h, isRetryable]

/-- Witness for C4 at a concrete failing transaction. -/
theorem execute_read_client_error_immediate_witness :
    execute_read (fun _ => (CallResult.raises Exc.clientError : CallResult Nat)) =
      ⟨.propagated (.queryError .clientError), 1, []⟩ :=
  execute_read_client_error_immediate
    (fun _ => (CallResult.raises Exc.clientError : CallResult Nat)) rfl

/-! ## `connect` (`connection.py`) -/

/-- The body of `connect` on a not-yet-connected instance: driver
construction plus `verify_connectivity` either succeeds or raises; an
`AuthError` is caught and re-raised as `GraphConnectionError` wrapping it
(after `close()`), every other exception is re-raised unchanged (after
`close()`). -/
def connectBody (setup : CallResult Unit) : CallResult Unit :=
  match setup with
  | .ok _ => .ok ()
  | .raises .authError => .raises (.graphConnectionError .authError)
  | .raises e => .raises e

/-- `connect`: `connectBody` under
`@with_retry(max_attempts=3, base_delay=2.0)` (backoff factor defaults to
2.0); `setup i` is what driver setup does on the i-th attempt. -/
def connect (setup : Nat → CallResult Unit) : RetryTrace Unit :=
  with_retry 3 2 2 (fun i => connectBody (setup i))

/-- C5 counterexample: when authentication fails, `connect` raises
`GraphConnectionError` after a single call and zero sleeps — the
`ConnectionError` surfaces on the first attempt, not after the 3-attempt
retry policy is exhausted, refuting the claim as stated. -/
theorem connect_auth_error_first_attempt :
    connect (fun _ => CallResult.raises Exc.authError) =
      ⟨.propagated (.graphConnectionError .authError), 1, []⟩ ∧
    (connect (fun _ => CallResult.raises Exc.authError)).calls < 3 := by
  refine ⟨?_, ?_⟩ <;>
    simp [connect, with_retry, retryLoop, connectBody, isRetryable]

/-- C5 amended: a network-setup failure (retryable exception on every
attempt) surfaces as `GraphConnectionError` only after the 3 attempts are
exhausted, with two backoff sleeps; an authentication failure is converted
to `GraphConnectionError` and propagates on the very first attempt, with no
retry and no sleep. -/
theorem connect_retry_exhaustion_amended
    (setup setupAuth : Nat → CallResult Unit) (err : Nat → Exc)
    (hs : ∀ i, setup i = .raises (err i))
    (hr : ∀ i, isRetryable (err i) = true)
    (ha : setupAuth 1 = .raises .authError) :
    connect setup = ⟨.connError (some (err 3)), 3, [2, 2 * 2]⟩ ∧
    connect setupAuth =
      ⟨.propagated (.graphConnectionError .authError), 1, []⟩ := by
  have hne : ∀ i, err i ≠ Exc.authError := by
    intro i hcontra
    have := hr i
    rw [hcontra] at this
    simp [isRetryable] at this
  constructor
  · have hb : ∀ i, connectBody (setup i) = .raises (err i) := by
      intro i
      rw [hs i]
      cases h : err i <;> first
        | rfl
        | (exact absurd h (hne i))
    simp [connect, with_retry, retryLoop, hb, hr]
  · simp [connect, with_retry, retryLoop, ha, connectBody, isRetryable]

/-- Witness for C5 amended at concrete setups. -/
theorem connect_retry_exhaustion_amended_witness :
    connect (fun _ => CallResult.raises Exc.serviceUnavailable) =
      ⟨.connError (some Exc.serviceUnavailable), 3, [2, 2 * 2]⟩ ∧
    connect (fun _ => CallResult.raises Exc.authError) =
      ⟨.propagated (.graphConnectionError .authError), 1, []⟩ :=
  connect_retry_exhaustion_amended
    (fun _ => CallResult.raises Exc.serviceUnavailable)
    (fun _ => CallResult.raises Exc.authError)
    (fun _ => Exc.serviceUnavailable)
    (fun _ => rfl) (fun _ => rfl) rfl

/-! ## Service-layer store model (`service.py`, `repository.py`)

Node uids (`str(uuid.uuid4())` in the repository) are modelled by a counter
carried in the store; what matters for the service-layer claims is only
that a fresh uid is distinct from the existing ones.  The external store's
behaviour at a delegated write is modelled by an optional injected
exception (`fault`/`env`): `some e` means the write raises `e`. -/

structure SNode where
  label : String
  name : String
  uid : Nat
  deriving DecidableEq, Repr

structure SRel where
  src : Nat
  tgt : Nat
  rel_type : String
  deriving DecidableEq, Repr

structure SStore where
  nodes : List SNode
  rels : List SRel
  nextUid : Nat
  deriving DecidableEq, Repr

structure SNodeCreate where
  label : String
  name : String
  deriving DecidableEq, Repr

structure SRelCreate where
  source_uid : Nat
  target_uid : Nat
  rel_type : String
  deriving DecidableEq, Repr

/-- `GraphRepository.node_exists`: `MATCH (n:_Node:label {name: $name})
RETURN count(n) > 0`. -/
def node_exists (st : SStore) (label name : String) : Bool :=
  st.nodes.any (fun n => n.label == label && n.name == name)

/-- Endpoint lookup used by `GraphService.create_relationship` via
`GraphRepository.get_node`: `MATCH (n:_Node {uid: $uid})`. -/
def uid_exists (st : SStore) (uid : Nat) : Bool :=
  st.nodes.any (fun n => n.uid == uid)

/-- `GraphService.create_node`: check `(label, name)` uniqueness via
`node_exists` first, raise `DuplicateNodeError` if violated, otherwise
delegate to the repository write.  Returns the call's result together with
the store after the call. -/
def create_node (st : SStore) (data : SNodeCreate) (fault : Option Exc) :
    Except Exc SNode × SStore :=
  if node_exists st data.label data.name then
    (.error .duplicateNodeError, st)
  else
    match fault with
    | some e => (.error e, st)
    | none =>
      let n : SNode := ⟨data.label, data.name, st.nextUid⟩
      (.ok n, ⟨st.nodes ++ [n], st.rels, st.nextUid + 1⟩)

/-- `GraphService.create_relationship`: look up the source endpoint, then
the target endpoint, raising `NodeNotFoundError` if either is missing, then
delegate to the repository write. -/
def create_relationship (st : SStore) (data : SRelCreate)
    (fault : Option Exc) : Except Exc SRel × SStore :=
  if uid_exists st data.source_uid = false then
    (.error .nodeNotFoundError, st)
  else if uid_exists st data.target_uid = false then
    (.error .nodeNotFoundError, st)
  else
    match fault with
    | some e => (.error e, st)
    | none =>
      let r : SRel := ⟨data.source_uid, data.target_uid, data.rel_type⟩
      (.ok r, ⟨st.nodes, st.rels ++ [r], st.nextUid⟩)

/-- C6: for every `NodeCreate` whose `(label, name)` pair already names an
existing node, `create_node` raises `DuplicateNodeError` and returns the
store unchanged, whatever the underlying write would have done — the
duplicate check runs before any write is attempted. -/
theorem create_node_duplicate_unchanged (st : SStore) (data : SNodeCreate)
    (fault : Option Exc)
    (h : node_exists st data.label data.name = true) :
    create_node st data fault = (.error .duplicateNodeError, st) := by
  simp [create_node, h]

/-- Witness for C6: a duplicate `(Technology, Apache Kafka)` create is
rejected with the store unchanged even though the underlying write was set
up to fail, showing it is never reached. -/
theorem create_node_duplicate_unchanged_witness :
    create_node ⟨[⟨"Technology", "Apache Kafka", 0⟩], [], 1⟩
        ⟨"Technology", "Apache Kafka"⟩ (some (.queryError .clientError)) =
      (.error .duplicateNodeError, ⟨[⟨"Technology", "Apache Kafka", 0⟩], [], 1⟩) :=
  create_node_duplicate_unchanged
    ⟨[⟨"Technology", "Apache Kafka", 0⟩], [], 1⟩
    ⟨"Technology", "Apache Kafka"⟩ (some (.queryError .clientError))
    (by decide)

/-- `GraphService.create_nodes_batch`: attempt each item in input order via
`create_node`, catching only `DuplicateNodeError` (log and skip); any other
exception aborts the batch and propagates.  `env i` models the store
behaviour at the i-th item's write. -/
def create_nodes_batch (env : Nat → Option Exc) :
    SStore → List SNodeCreate → Nat → Except Exc (List SNode × SStore)
  | st, [], _ => .ok ([], st)
  | st, item :: rest, i =>
    match create_node st item (env i) with
    | (.ok n, st2) =>
      match create_nodes_batch env st2 rest (i + 1) with
      | .ok (cs, stf) => .ok (n :: cs, stf)
      | .error e => .error e
    | (.error .duplicateNodeError, st2) =>
      create_nodes_batch env st2 rest (i + 1)
    | (.error e, _) => .error e

/-- `GraphService.create_relationships_batch`: attempt each item in input
order via `create_relationship`, catching only `NodeNotFoundError` and
`RelationshipNotFoundError` (log and skip); any other exception aborts the
batch and propagates. -/
def create_relationships_batch (env : Nat → Option Exc) :
    SStore → List SRelCreate → Nat → Except Exc (List SRel × SStore)
  | st, [], _ => .ok ([], st)
  | st, item :: rest, i =>
    match create_relationship st item (env i) with
    | (.ok r, st2) =>
      match create_relationships_batch env st2 rest (i + 1) with
      | .ok (cs, stf) => .ok (r :: cs, stf)
      | .error e => .error e
    | (.error .nodeNotFoundError, st2) =>
      create_relationships_batch env st2 rest (i + 1)
    | (.error .relationshipNotFoundError, st2) =>
      create_relationships_batch env st2 rest (i + 1)
    | (.error e, _) => .error e

/-- Modelled from the spec: the batch's expected selection of successful
node items — walk the items in order, skip one whose `(label, name)` key is
already taken, and record the keys of accepted items for the remainder. -/
def nodeBatchSpec (keys : List (String × String)) :
    List SNodeCreate → List SNodeCreate
  | [] => []
  | it :: rest =>
    if (it.label, it.name) ∈ keys then nodeBatchSpec keys rest
    else it :: nodeBatchSpec ((it.label, it.name) :: keys) rest

/-- The `(label, name)` keys present in a store. -/
def storeKeys (st : SStore) : List (String × String) :=
  st.nodes.map (fun n => (n.label, n.name))

theorem nodeBatchSpec_congr (keys1 keys2 : List (String × String))
    (h : ∀ k, k ∈ keys1 ↔ k ∈ keys2) (items : List SNodeCreate) :
    nodeBatchSpec keys1 items = nodeBatchSpec keys2 items := by
  induction items generalizing keys1 keys2 with
  | nil => rfl
  | cons it rest ih =>
    simp only [nodeBatchSpec]
    by_cases hk : (it.label, it.name) ∈ keys1
    · rw [if_pos hk, if_pos ((h _).1 hk)]
      exact ih _ _ h
    · rw [if_neg hk, if_neg (fun hc => hk ((h _).2 hc))]
      refine congrArg _ (ih _ _ ?_)
      intro k
      simp only [List.mem_cons]
      exact or_congr Iff.rfl (h k)

theorem node_exists_iff_storeKeys (st : SStore) (label name : String) :
    node_exists st label name = true ↔ (label, name) ∈ storeKeys st := by
  simp only [node_exists, storeKeys, List.any_eq_true, List.mem_map,
    Bool.and_eq_true, beq_iff_eq]
  constructor
  · rintro ⟨n, hn, h1, h2⟩
    exact ⟨n, hn, by rw [h1, h2]⟩
  · rintro ⟨n, hn, h⟩
    exact ⟨n, hn, congrArg Prod.fst h, congrArg Prod.snd h⟩

theorem create_nodes_batch_no_fault (items : List SNodeCreate)
    (st : SStore) (i : Nat) :
    ∃ cs stf, create_nodes_batch (fun _ => none) st items i = .ok (cs, stf) ∧
      cs.map (fun n => (n.label, n.name)) =
        (nodeBatchSpec (storeKeys st) items).map (fun d => (d.label, d.name)) := by
  induction items generalizing st i with
  | nil => exact ⟨[], st, rfl, rfl⟩
  | cons it rest ih =>
    by_cases hex : node_exists st it.label it.name = true
    · have hk : (it.label, it.name) ∈ storeKeys st :=
        (node_exists_iff_storeKeys st it.label it.name).1 hex
      obtain ⟨cs, stf, hrun, hmap⟩ := ih st (i + 1)
      refine ⟨cs, stf, ?_, ?_⟩
      · simp only [create_nodes_batch, create_node, hex, if_true]
        exact hrun
      · rw [hmap]
        simp only [nodeBatchSpec, if_pos hk]
    · have hk : (it.label, it.name) ∉ storeKeys st := fun hc =>
        hex ((node_exists_iff_storeKeys st it.label it.name).2 hc)
      have hexf : node_exists st it.label it.name = false :=
        Bool.eq_false_iff.2 (fun hc => hex hc)
      obtain ⟨cs, stf, hrun, hmap⟩ :=
        ih ⟨st.nodes ++ [⟨it.label, it.name, st.nextUid⟩], st.rels,
          st.nextUid + 1⟩ (i + 1)
      refine ⟨⟨it.label, it.name, st.nextUid⟩ :: cs, stf, ?_, ?_⟩
      · simp [create_nodes_batch, create_node, hexf, hrun]
      · have hkeys : ∀ k, k ∈ storeKeys
            (⟨st.nodes ++ [⟨it.label, it.name, st.nextUid⟩], st.rels,
              st.nextUid + 1⟩ : SStore) ↔
            k ∈ ((it.label, it.name) :: storeKeys st) := by
          intro k
          simp only [storeKeys, List.map_append, List.mem_append,
            List.map_cons, List.map_nil, List.mem_singleton, List.mem_cons]
          constructor
          · rintro (h | h)
            · exact Or.inr h
            · exact Or.inl (by simpa using h)
          · rintro (h | h)
            · exact Or.inr (by simpa using h)
            · exact Or.inl h
        simp only [List.map_cons, hmap, nodeBatchSpec, if_neg hk]
        rw [nodeBatchSpec_congr _ _ hkeys]

theorem create_relationships_batch_no_fault (items : List SRelCreate)
    (st : SStore) (i : Nat) :
    ∃ cs stf,
      create_relationships_batch (fun _ => none) st items i = .ok (cs, stf) ∧
      cs.map (fun r => (r.src, r.tgt, r.rel_type)) =
        (items.filter (fun d =>
            uid_exists st d.source_uid && uid_exists st d.target_uid)).map
          (fun d => (d.source_uid, d.target_uid, d.rel_type)) := by
  induction items generalizing st i with
  | nil => exact ⟨[], st, rfl, rfl⟩
  | cons it rest ih =>
    by_cases hs : uid_exists st it.source_uid = true
    · by_cases ht : uid_exists st it.target_uid = true
      · obtain ⟨cs, stf, hrun, hmap⟩ :=
          ih ⟨st.nodes, st.rels ++ [⟨it.source_uid, it.target_uid, it.rel_type⟩],
            st.nextUid⟩ (i + 1)
        have hsame : ∀ u, uid_exists
            (⟨st.nodes, st.rels ++ [⟨it.source_uid, it.target_uid, it.rel_type⟩],
              st.nextUid⟩ : SStore) u = uid_exists st u := fun _ => rfl
        refine ⟨⟨it.source_uid, it.target_uid, it.rel_type⟩ :: cs, stf, ?_, ?_⟩
        · simp [create_relationships_batch, create_relationship, hs, ht, hrun]
        · have hfilter :
              rest.filter (fun d =>
                uid_exists (⟨st.nodes,
                  st.rels ++ [⟨it.source_uid, it.target_uid, it.rel_type⟩],
                  st.nextUid⟩ : SStore) d.source_uid &&
                uid_exists (⟨st.nodes,
                  st.rels ++ [⟨it.source_uid, it.target_uid, it.rel_type⟩],
                  st.nextUid⟩ : SStore) d.target_uid) =
              rest.filter (fun d =>
                uid_exists st d.source_uid && uid_exists st d.target_uid) := by
            apply List.filter_congr
            intro d _
            rw [hsame, hsame]
          simp only [List.filter_cons, hs, ht, Bool.and_self, if_true,
            List.map_cons]
          rw [hmap, hfilter]
      · have htf : uid_exists st it.target_uid = false :=
          Bool.eq_false_iff.2 (fun hc => ht hc)
        obtain ⟨cs, stf, hrun, hmap⟩ := ih st (i + 1)
        refine ⟨cs, stf, ?_, ?_⟩
        · simp [create_relationships_batch, create_relationship, hs, htf, hrun]
        · rw [hmap]
          simp [List.filter_cons, hs, htf]
    · have hsf : uid_exists st it.source_uid = false :=
        Bool.eq_false_iff.2 (fun hc => hs hc)
      obtain ⟨cs, stf, hrun, hmap⟩ := ih st (i + 1)
      refine ⟨cs, stf, ?_, ?_⟩
      · simp [create_relationships_batch, create_relationship, hsf, hrun]
      · rw [hmap]
        simp [List.filter_cons, hsf]

/-- C7: batches attempt items in input order with skip-and-continue
semantics.  With no store fault: the node batch returns exactly the items
whose `(label, name)` key was fresh at their turn, in input order, and the
relationship batch returns exactly the items whose two endpoints exist, in
input order.  A write failing with anything other than the skip-listed
errors (`DuplicateNodeError` for nodes, `NodeNotFoundError` /
`RelationshipNotFoundError` for relationships) aborts the batch and
propagates. -/
theorem create_batches_partial_success (st : SStore)
    (items : List SNodeCreate) (ritems : List SRelCreate) :
    (∃ cs stf,
        create_nodes_batch (fun _ => none) st items 0 = .ok (cs, stf) ∧
        cs.map (fun n => (n.label, n.name)) =
          (nodeBatchSpec (storeKeys st) items).map
            (fun d => (d.label, d.name))) ∧
    (∃ cs stf,
        create_relationships_batch (fun _ => none) st ritems 0 = .ok (cs, stf) ∧
        cs.map (fun r => (r.src, r.tgt, r.rel_type)) =
          (ritems.filter (fun d =>
              uid_exists st d.source_uid && uid_exists st d.target_uid)).map
            (fun d => (d.source_uid, d.target_uid, d.rel_type))) ∧
    (∀ env (it : SNodeCreate) rest e, env 0 = some e →
        e ≠ .duplicateNodeError →
        node_exists st it.label it.name = false →
        create_nodes_batch env st (it :: rest) 0 = .error e) ∧
    (∀ env (it : SRelCreate) rest e, env 0 = some e →
        e ≠ .nodeNotFoundError → e ≠ .relationshipNotFoundError →
        uid_exists st it.source_uid = true →
        uid_exists st it.target_uid = true →
        create_relationships_batch env st (it :: rest) 0 = .error e) := by
  refine ⟨create_nodes_batch_no_fault items st 0,
    create_relationships_batch_no_fault ritems st 0, ?_, ?_⟩
  · intro env it rest e henv hne hex
    cases e <;> simp_all [create_nodes_batch, create_node]
  · intro env it rest e henv hn1 hn2 hs ht
    cases e <;> simp_all [create_relationships_batch, create_relationship]

/-- Witness for C7: a batch over a store holding `(Technology, Kafka)` with
a duplicate item skipped, a relationship batch with a missing endpoint
skipped, and a `QueryError` aborting a node batch. -/
theorem create_batches_partial_success_witness :
    (∃ cs stf,
        create_nodes_batch (fun _ => none)
            ⟨[⟨"Technology", "Kafka", 0⟩], [], 1⟩
            [⟨"Technology", "Kafka"⟩, ⟨"Company", "Acme"⟩] 0 = .ok (cs, stf) ∧
        cs.map (fun n => (n.label, n.name)) =
          (nodeBatchSpec (storeKeys ⟨[⟨"Technology", "Kafka", 0⟩], [], 1⟩)
              [⟨"Technology", "Kafka"⟩, ⟨"Company", "Acme"⟩]).map
            (fun d => (d.label, d.name))) ∧
    create_nodes_batch (fun _ => some (.queryError .clientError))
        ⟨[⟨"Technology", "Kafka", 0⟩], [], 1⟩ [⟨"Company", "Acme"⟩] 0 =
      .error (.queryError .clientError) :=
  ⟨(create_batches_partial_success ⟨[⟨"Technology", "Kafka", 0⟩], [], 1⟩
      [⟨"Technology", "Kafka"⟩, ⟨"Company", "Acme"⟩] []).1,
   (create_batches_partial_success ⟨[⟨"Technology", "Kafka", 0⟩], [], 1⟩
      [⟨"Technology", "Kafka"⟩, ⟨"Company", "Acme"⟩] []).2.2.1
     (fun _ => some (.queryError .clientError)) ⟨"Company", "Acme"⟩ []
     (.queryError .clientError) rfl (by decide) (by decide)⟩

/-! ## Filter models (`models.py`)

Property values are modelled as integers and weights as rationals.  The
`created_after`/`created_before` bounds of `NodeFilter` are omitted: no
claim under verification mentions them and the subgraph builders ignore
them. -/

structure NodeFilterSpec where
  labels : Option (List String)
  name_contains : Option String
  properties_match : Option (List (String × Int))
  source : Option String
  limit : Int
  offset : Int
  deriving DecidableEq, Repr

structure RelFilterSpec where
  rel_types : Option (List String)
  weight_min : Option ℚ
  weight_max : Option ℚ
  source : Option String
  limit : Int
  offset : Int
  deriving DecidableEq, Repr

/-- Construction of a `NodeFilter`: pydantic enforces the declared field
constraints `limit: ge=1, le=10000` and `offset: ge=0` when the model is
instantiated, raising its `ValidationError` on violation. -/
def mkNodeFilter (labels : Option (List String)) (nc : Option String)
    (pm : Option (List (String × Int))) (src : Option String)
    (limit offset : Int) : Except Exc NodeFilterSpec :=
  if limit < 1 ∨ 10000 < limit then .error .validationError
  else if offset < 0 then .error .validationError
  else .ok ⟨labels, nc, pm, src, limit, offset⟩

/-- Construction of a `RelationshipFilter`: same pagination constraints. -/
def mkRelationshipFilter (rts : Option (List String))
    (wmin wmax : Option ℚ) (src : Option String)
    (limit offset : Int) : Except Exc RelFilterSpec :=
  if limit < 1 ∨ 10000 < limit then .error .validationError
  else if offset < 0 then .error .validationError
  else .ok ⟨rts, wmin, wmax, src, limit, offset⟩

/-- C9 counterexample: a node filter with `limit = 0` is rejected at model
construction with pydantic's `ValidationError`; that exception is not
`InvalidFilterError`, which `graph/exceptions.py` declares but which no
code in the repository ever raises. -/
theorem invalid_limit_rejected_with_validation_error :
    mkNodeFilter none none none none 0 0 = .error .validationError ∧
    Exc.validationError ≠ Exc.invalidFilterError :=
  ⟨by simp [mkNodeFilter], fun h => Exc.noConfusion h⟩

/-- C9 amended: a filter specification with pagination bounds outside
`limit ∈ [1, 10000]` or with `offset < 0` never produces a filter value —
so no query is ever built from it — but the rejection is pydantic's
`ValidationError` at model construction, not `InvalidFilterError`. -/
theorem invalid_pagination_never_yields_filter
    (labels : Option (List String)) (nc : Option String)
    (pm : Option (List (String × Int))) (rts : Option (List String))
    (wmin wmax : Option ℚ) (src : Option String) (limit offset : Int)
    (h : limit < 1 ∨ 10000 < limit ∨ offset < 0) :
    mkNodeFilter labels nc pm src limit offset = .error .validationError ∧
    mkRelationshipFilter rts wmin wmax src limit offset =
      .error .validationError := by
  unfold mkNodeFilter mkRelationshipFilter
  rcases h with h | h | h
  · rw [if_pos (Or.inl h), if_pos (Or.inl h)]
    exact ⟨rfl, rfl⟩
  · rw [if_pos (Or.inr h), if_pos (Or.inr h)]
    exact ⟨rfl, rfl⟩
  · by_cases hl : limit < 1 ∨ 10000 < limit
    · rw [if_pos hl, if_pos hl]
      exact ⟨rfl, rfl⟩
    · rw [if_neg hl, if_neg hl, if_pos h, if_pos h]
      exact ⟨rfl, rfl⟩

/-- Witness for C9 amended at `limit = 20000`. -/
theorem invalid_pagination_never_yields_filter_witness :
    mkNodeFilter none none none none 20000 0 = .error .validationError ∧
    mkRelationshipFilter none none none none 20000 0 =
      .error .validationError :=
  invalid_pagination_never_yields_filter none none none none none none none
    20000 0 (by decide)

/-! ## Property-graph model (`repository.py` queries)

A store of property nodes and directed relationships.  `init_schema`
declares `node_uid_unique`, so uid-equality identifies nodes; the record
dedup performed by `collect(DISTINCT ...)` is modelled by `List.dedup`. -/

structure GNode where
  uid : String
  name : String
  labels : List String
  source : Option String
  props : List (String × Int)
  deriving DecidableEq, Repr

structure GRel where
  src : String
  tgt : String
  rel_type : String
  weight : ℚ
  source : Option String
  deriving DecidableEq, Repr

structure Graph where
  nodes : List GNode
  rels : List GRel
  deriving DecidableEq, Repr

/-- `MATCH (n:_Node {uid: $uid})`. -/
def findNode (g : Graph) (uid : String) : Option GNode :=
  g.nodes.find? (fun n => n.uid == uid)

/-- Python truthiness of an optional list/mapping field: `None` and the
empty collection are both falsy, so `if nf.labels:` skips both. -/
def optListTruthy {α : Type} : Option (List α) → Bool
  | none => false
  | some l => !l.isEmpty

/-- Python truthiness of an optional string field: `None` and `""` are both
falsy, so `if nf.source:` skips both. -/
def optStrTruthy : Option String → Bool
  | none => false
  | some s => !(s == "")

/-- Whether `pat` occurs at the head of `hay`. -/
def charsStartWith : List Char → List Char → Bool
  | _, [] => true
  | [], _ :: _ => false
  | c :: cs, p :: ps => c == p && charsStartWith cs ps

/-- Whether `pat` occurs contiguously anywhere in `hay`. -/
def charsContain : List Char → List Char → Bool
  | [], pat => pat.isEmpty
  | c :: rest, pat => charsStartWith (c :: rest) pat || charsContain rest pat

/-- The Cypher clause `toLower(hay) CONTAINS toLower(pat)`. -/
def containsCI (hay pat : String) : Bool :=
  charsContain hay.toLower.toList pat.toLower.toList

/-- The Cypher pattern check `node:L`. -/
def hasLabel (n : GNode) (l : String) : Bool :=
  n.labels.contains l

/-- The Cypher clause `node.key = $value`: a missing property is null and
null never equals a bound value. -/
def propEq (n : GNode) (k : String) (v : Int) : Bool :=
  match n.props.find? (fun p => p.1 == k) with
  | some p => p.2 == v
  | none => false

/-- The Cypher clause `node.source = $source`: a null source never equals
the bound value. -/
def nodeSourceEq (n : GNode) (s : String) : Bool :=
  match n.source with
  | some t => t == s
  | none => false

/-- The Cypher clause `rel.source = $rel_source`. -/
def relSourceEq (r : GRel) (s : String) : Bool :=
  match r.source with
  | some t => t == s
  | none => false

/-- The type alternation `-[:T1|T2...]-` spliced into a pattern; `none`
means no alternation was spliced. -/
def relMatchesTypes (rts : Option (List String)) (r : GRel) : Bool :=
  match rts with
  | none => true
  | some ts => ts.contains r.rel_type

structure SubgraphFilterSpec where
  node_filter : Option NodeFilterSpec
  rel_filter : Option RelFilterSpec
  center_uid : Option String
  depth : Nat
  limit : Nat
  deriving DecidableEq, Repr

/-- The node part of the WHERE clause built by `_get_neighborhood`: the
label / name-substring / source conditions are collected into a local
`node_conditions` list, which is joined into `node_where_clauses`; the
`properties_match` conditions are appended to the local list only after
that join (`repository.py`, `_get_neighborhood`), so they never reach the
emitted query — the dead append is mirrored here by the unused
`_condsAfterDeadAppend`. -/
def neighborhoodNodeClauses (nf : Option NodeFilterSpec) :
    List (GNode → Bool) :=
  match nf with
  | none => []
  | some f =>
    let nodeConditions : List (GNode → Bool) :=
      (if optListTruthy f.labels then
        [fun n => (f.labels.getD []).any (fun l => hasLabel n l)]
       else []) ++
      (if optStrTruthy f.name_contains then
        [fun n => containsCI n.name (f.name_contains.getD "")]
       else []) ++
      (if optStrTruthy f.source then
        [fun n => nodeSourceEq n (f.source.getD "")]
       else [])
    let nodeWhereClauses : List (GNode → Bool) :=
      if nodeConditions.isEmpty then []
      else [fun n => nodeConditions.all (fun c => c n)]
    let _condsAfterDeadAppend : List (GNode → Bool) :=
      nodeConditions ++
        (if optListTruthy f.properties_match then
          (f.properties_match.getD []).map (fun kv n => propEq n kv.1 kv.2)
         else [])
    nodeWhereClauses

/-- The relationship WHERE clauses built identically by
`_get_neighborhood` and `get_relationships`: `weight_min` / `weight_max`
are `is not None` checks, `source` is a truthiness check. -/
def relWhereClauses (rf : Option RelFilterSpec) :
    List (GRel → Bool) :=
  match rf with
  | none => []
  | some f =>
    (match f.weight_min with
     | some w => [fun r => decide (w ≤ r.weight)]
     | none => []) ++
    (match f.weight_max with
     | some w => [fun r => decide (r.weight ≤ w)]
     | none => []) ++
    (if optStrTruthy f.source then
      [fun r => relSourceEq r (f.source.getD "")]
     else [])

/-- The type alternation spliced into the traversal pattern (by
`_get_neighborhood`, `_get_filtered_subgraph` and `get_relationships`
alike) when `rf.rel_types` is truthy. -/
def relTypeAlternation (rf : Option RelFilterSpec) : Option (List String) :=
  match rf with
  | none => none
  | some f => if optListTruthy f.rel_types then f.rel_types else none

/-- One step of the undirected variable-length pattern: an index into
`g.rels` plus the direction it is traversed in (`true` = along the stored
direction). -/
abbrev Step := Nat × Bool

/-- All paths of exactly `len` steps starting at `start`, as Cypher
enumerates `-[*]-`: each extension traverses a relationship not already on
the path (relationship uniqueness), in either direction; a self-loop is
traversed once.  Each entry pairs the step list with the uid of the path's
final node. -/
def pathsOfLen (g : Graph) (start : String) : Nat → List (List Step × String)
  | 0 => [([], start)]
  | k + 1 =>
    (pathsOfLen g start k).flatMap (fun pc =>
      (List.range g.rels.length).flatMap (fun i =>
        if (pc.1.map Prod.fst).contains i then []
        else
          match g.rels.get? i with
          | none => []
          | some r =>
            (if r.src == pc.2 then [(pc.1 ++ [(i, true)], r.tgt)] else []) ++
            (if r.tgt == pc.2 && !(r.src == pc.2) then
              [(pc.1 ++ [(i, false)], r.src)]
             else [])))

/-- The uids of `nodes(path)[1..]`: the node reached after each step, read
off the step's direction flag. -/
def pathTailUids (g : Graph) : List Step → List String
  | [] => []
  | s :: rest =>
    match g.rels.get? s.1 with
    | none => []
    | some r =>
      (if s.2 then r.tgt else r.src) :: pathTailUids g rest

/-- Whether a path row survives the pattern's type alternation and the
`ALL(rel IN relationships(path) ...)` / `ALL(node IN nodes(path)[1..] ...)`
WHERE conditions of `_get_neighborhood`. -/
def pathQualifies (g : Graph) (sf : SubgraphFilterSpec)
    (steps : List Step) : Bool :=
  steps.all (fun s =>
    match g.rels.get? s.1 with
    | none => false
    | some r =>
      relMatchesTypes (relTypeAlternation sf.rel_filter) r &&
      (relWhereClauses sf.rel_filter).all (fun c => c r)) &&
  (pathTailUids g steps).all (fun u =>
    match findNode g u with
    | none => false
    | some n => (neighborhoodNodeClauses sf.node_filter).all (fun c => c n))

/-- The `(path, m)` rows produced by
`MATCH path = (center)-[*1..depth]-(m:_Node) WHERE ...`, enumerated by
increasing path length. -/
def neighborhoodRows (g : Graph) (sf : SubgraphFilterSpec) :
    List (List Step × String) :=
  ((List.range sf.depth).flatMap (fun k =>
    pathsOfLen g (sf.center_uid.getD "") (k + 1))).filter
    (fun pc => pathQualifies g sf pc.1)

structure SubgraphResult where
  nodes : List GNode
  rels : List GRel
  deriving DecidableEq, Repr

/-- `GraphRepository._get_neighborhood`: take the qualifying path rows up
to `LIMIT $limit`; if no row qualifies the query returns no record and the
mapper builds an empty response; otherwise the nodes are
`collect(DISTINCT center) + collect(DISTINCT m)` deduplicated, and the
relationships are the deduplicated relationships of the collected paths. -/
def get_neighborhood (g : Graph) (sf : SubgraphFilterSpec) : SubgraphResult :=
  match findNode g (sf.center_uid.getD "") with
  | none => ⟨[], []⟩
  | some center =>
    let rows := (neighborhoodRows g sf).take sf.limit
    if rows.isEmpty then ⟨[], []⟩
    else
      ⟨(center :: rows.filterMap (fun pc => findNode g pc.2)).dedup,
       (rows.flatMap (fun pc =>
         pc.1.filterMap (fun s => g.rels.get? s.1))).dedup⟩

/-- The node selection clause of `_get_filtered_subgraph`: only label
membership, name substring and source equality are emitted there. -/
def filteredNodeClauses (nf : Option NodeFilterSpec) : List (GNode → Bool) :=
  match nf with
  | none => []
  | some f =>
    (if optListTruthy f.labels then
      [fun n => (f.labels.getD []).any (fun l => hasLabel n l)]
     else []) ++
    (if optStrTruthy f.name_contains then
      [fun n => containsCI n.name (f.name_contains.getD "")]
     else []) ++
    (if optStrTruthy f.source then
      [fun n => nodeSourceEq n (f.source.getD "")]
     else [])

/-- The relationship WHERE clause of `_get_filtered_subgraph`: only the
weight bounds are emitted there (no source clause). -/
def filteredRelClauses (rf : Option RelFilterSpec) : List (GRel → Bool) :=
  match rf with
  | none => []
  | some f =>
    (match f.weight_min with
     | some w => [fun r => decide (w ≤ r.weight)]
     | none => []) ++
    (match f.weight_max with
     | some w => [fun r => decide (r.weight ≤ w)]
     | none => [])

/-- The node predicate `_get_filtered_subgraph` selects nodes with. -/
def filteredNodePred (sf : SubgraphFilterSpec) (n : GNode) : Bool :=
  (filteredNodeClauses sf.node_filter).all (fun c => c n)

/-- `collect(DISTINCT n)[..$limit]`: the selected nodes of
`_get_filtered_subgraph`. -/
def filteredSubgraphNodes (g : Graph) (sf : SubgraphFilterSpec) :
    List GNode :=
  ((g.nodes.filter (filteredNodePred sf)).dedup).take sf.limit

/-- Whether `OPTIONAL MATCH (n)-[r...]-(m:_Node) WHERE m IN filtered_nodes
AND ...` matches `r` for some selected `n`: both endpoints are selected
(uid-equality suffices under the uid uniqueness constraint), the type
alternation matches and the weight bounds hold. -/
def filteredSubgraphRelPred (g : Graph) (sf : SubgraphFilterSpec)
    (r : GRel) : Bool :=
  ((filteredSubgraphNodes g sf).map (fun n => n.uid)).contains r.src &&
  ((filteredSubgraphNodes g sf).map (fun n => n.uid)).contains r.tgt &&
  relMatchesTypes (relTypeAlternation sf.rel_filter) r &&
  (filteredRelClauses sf.rel_filter).all (fun c => c r)

/-- `GraphRepository._get_filtered_subgraph`: every selected node is
returned; the relationship expansion is an OPTIONAL MATCH whose null rows
are discarded by `[r IN rels WHERE r.rel_type IS NOT NULL]`, so it never
prunes nodes. -/
def get_filtered_subgraph (g : Graph) (sf : SubgraphFilterSpec) :
    SubgraphResult :=
  ⟨filteredSubgraphNodes g sf,
   (g.rels.filter (filteredSubgraphRelPred g sf)).dedup⟩

/-- `GraphRepository.get_subgraph`: dispatch on `center_uid` truthiness. -/
def get_subgraph (g : Graph) (sf : SubgraphFilterSpec) : SubgraphResult :=
  if optStrTruthy sf.center_uid then get_neighborhood g sf
  else get_filtered_subgraph g sf

/-! ## `get_relationships` (`repository.py`) -/

/-- The fields of a `RelationshipResponse` relevant here (timestamps and
open properties omitted). -/
structure RelResponseSpec where
  source_uid : String
  target_uid : String
  rel_type : String
  weight : ℚ
  source : Option String
  deriving DecidableEq, Repr

/-- Whether the MATCH of `get_relationships` —
`(source:_Node {uid: $uid})-[r:T1|T2]-(target:_Node)` plus the WHERE
clauses — matches `r`: the pattern is undirected, so both stored
directions are matched. -/
def relMatches (uid : String) (rf : Option RelFilterSpec) (r : GRel) : Bool :=
  (r.src == uid || r.tgt == uid) &&
  relMatchesTypes (relTypeAlternation rf) r &&
  (relWhereClauses rf).all (fun c => c r)

/-- The record `get_relationships` returns for a matched relationship:
`source.uid AS source_uid` is always the anchor uid and
`target.uid AS target_uid` the other endpoint, whatever the stored
direction is. -/
def mkRelResponse (uid : String) (r : GRel) : RelResponseSpec :=
  ⟨uid, if r.src == uid then r.tgt else r.src, r.rel_type, r.weight, r.source⟩

/-- Insertion step of `ORDER BY r.weight DESC`. -/
def insertWeightDesc (x : RelResponseSpec) :
    List RelResponseSpec → List RelResponseSpec
  | [] => [x]
  | y :: ys =>
    if x.weight ≤ y.weight then y :: insertWeightDesc x ys
    else x :: y :: ys

/-- `ORDER BY r.weight DESC`. -/
def sortWeightDesc : List RelResponseSpec → List RelResponseSpec
  | [] => []
  | x :: xs => insertWeightDesc x (sortWeightDesc xs)

/-- `rel_filter.limit if rel_filter else 100`. -/
def relFilterLimit (rf : Option RelFilterSpec) : Int :=
  match rf with
  | some f => f.limit
  | none => 100

/-- `rel_filter.offset if rel_filter else 0`. -/
def relFilterOffset (rf : Option RelFilterSpec) : Int :=
  match rf with
  | some f => f.offset
  | none => 0

/-- `GraphRepository.get_relationships`: match incident relationships in
both directions, apply the WHERE clauses, order by weight descending,
paginate with `SKIP $offset LIMIT $limit`, and map each row through
`_map_relationship`. -/
def get_relationships (g : Graph) (uid : String)
    (rf : Option RelFilterSpec) : List RelResponseSpec :=
  (((sortWeightDesc
      ((g.rels.filter (relMatches uid rf)).map (mkRelResponse uid))).drop
    (relFilterOffset rf).toNat).take (relFilterLimit rf).toNat)

/-! ## Theorems about the subgraph and relationship queries -/

theorem mem_insertWeightDesc (x y : RelResponseSpec)
    (l : List RelResponseSpec) :
    y ∈ insertWeightDesc x l ↔ y = x ∨ y ∈ l := by
  induction l with
  | nil => simp [insertWeightDesc]
  | cons z zs ih =>
    simp only [insertWeightDesc]
    split
    · simp only [List.mem_cons, ih]
      tauto
    · simp only [List.mem_cons]

theorem mem_sortWeightDesc (y : RelResponseSpec)
    (l : List RelResponseSpec) :
    y ∈ sortWeightDesc l ↔ y ∈ l := by
  induction l with
  | nil => simp [sortWeightDesc]
  | cons z zs ih =>
    simp only [sortWeightDesc, mem_insertWeightDesc, ih, List.mem_cons]

theorem length_insertWeightDesc (x : RelResponseSpec)
    (l : List RelResponseSpec) :
    (insertWeightDesc x l).length = l.length + 1 := by
  induction l with
  | nil => rfl
  | cons z zs ih =>
    simp only [insertWeightDesc]
    split
    · simp [ih]
    · simp

theorem length_sortWeightDesc (l : List RelResponseSpec) :
    (sortWeightDesc l).length = l.length := by
  induction l with
  | nil => rfl
  | cons z zs ih =>
    simp [sortWeightDesc, length_insertWeightDesc, ih]

/-- C10: the incidence MATCH of `get_relationships` is undirected — every
stored relationship incident to the anchor uid in either direction that
passes the filter yields a row (shown under pagination hypotheses that the
matches fit in one page) — and every returned record carries the anchor as
`source_uid` and the other endpoint as `target_uid`, regardless of the
stored direction. -/
theorem get_relationships_undirected_anchor (g : Graph) (uid : String)
    (rf : Option RelFilterSpec) :
    (∀ resp ∈ get_relationships g uid rf,
      resp.source_uid = uid ∧
      ∃ r ∈ g.rels, relMatches uid rf r = true ∧
        resp = mkRelResponse uid r) ∧
    (relFilterOffset rf = 0 →
     (g.rels.filter (relMatches uid rf)).length ≤ (relFilterLimit rf).toNat →
     ∀ r ∈ g.rels, relMatches uid rf r = true →
       mkRelResponse uid r ∈ get_relationships g uid rf) := by
  constructor
  · intro resp hresp
    have h1 : resp ∈ sortWeightDesc
        ((g.rels.filter (relMatches uid rf)).map (mkRelResponse uid)) :=
      List.drop_subset _ _ (List.take_subset _ _ hresp)
    have h2 := (mem_sortWeightDesc _ _).1 h1
    obtain ⟨r, hr, heq⟩ := List.mem_map.1 h2
    obtain ⟨hrg, hmat⟩ := List.mem_filter.1 hr
    exact ⟨by rw [← heq]; rfl, r, hrg, hmat, heq.symm⟩
  · intro hoff hlen r hrg hmat
    have hmem : mkRelResponse uid r ∈ sortWeightDesc
        ((g.rels.filter (relMatches uid rf)).map (mkRelResponse uid)) :=
      (mem_sortWeightDesc _ _).2
        (List.mem_map_of_mem _ (List.mem_filter.2 ⟨hrg, hmat⟩))
    unfold get_relationships
    rw [hoff]
    simp only [Int.toNat_zero, List.drop_zero]
    rw [List.take_of_length_le]
    · exact hmem
    · rw [length_sortWeightDesc, List.length_map]
      exact hlen

/-- Witness for C10: a relationship stored as `x → u` is returned for
anchor `u` with `source_uid = u` and `target_uid = x`, flipping the stored
direction. -/
theorem get_relationships_undirected_anchor_witness :
    (⟨"u", "x", "R", 1, none⟩ : RelResponseSpec) ∈
      get_relationships
        ⟨[⟨"u", "you", ["T"], none, []⟩, ⟨"x", "ex", ["T"], none, []⟩],
         [⟨"x", "u", "R", 1, none⟩]⟩ "u" none :=
  (get_relationships_undirected_anchor
      ⟨[⟨"u", "you", ["T"], none, []⟩, ⟨"x", "ex", ["T"], none, []⟩],
       [⟨"x", "u", "R", 1, none⟩]⟩ "u" none).2
    rfl (by decide) ⟨"x", "u", "R", 1, none⟩ (by decide) (by decide)

/-- C2: evaluation at a failing input for the neighborhood node filter.
The node `b` (property `k = 2`) violates the supplied exact-match property
predicate `k = 1`, yet it is returned by the neighborhood query from
center `c`, because `_get_neighborhood` appends the `properties_match`
conditions to its local `node_conditions` list only after that list has
been joined into `node_where_clauses`, so the property predicate never
reaches the emitted WHERE clause. -/
theorem neighborhood_property_filter_not_applied :
    propEq ⟨"b", "bee", ["T"], none, [("k", 2)]⟩ "k" 1 = false ∧
    (⟨"b", "bee", ["T"], none, [("k", 2)]⟩ : GNode) ∈
      (get_subgraph
        ⟨[⟨"c", "center", ["T"], none, []⟩,
          ⟨"b", "bee", ["T"], none, [("k", 2)]⟩],
         [⟨"c", "b", "R", 1, none⟩]⟩
        ⟨some ⟨none, none, some [("k", 1)], none, 100, 0⟩, none,
          some "c", 1, 100⟩).nodes := by
  constructor
  · decide
  · decide

/-- C3 counterexample: an existing, isolated center node (`uid = a`, no
relationships) yields an empty node list — the center is not returned when
zero qualifying paths leave it, because the path MATCH is not optional and
produces no row. -/
theorem neighborhood_isolated_center_empty :
    findNode ⟨[⟨"a", "alone", ["T"], none, []⟩], []⟩ "a" =
      some ⟨"a", "alone", ["T"], none, []⟩ ∧
    get_subgraph ⟨[⟨"a", "alone", ["T"], none, []⟩], []⟩
        ⟨none, none, some "a", 1, 100⟩ = ⟨[], []⟩ := by
  constructor
  · decide
  · decide

/-- C3 amended: in neighborhood mode, whenever at least one qualifying
path row exists (and the limit admits at least one row), the center node
is returned — with no assumption that the center itself satisfies the
supplied node filter. -/
theorem neighborhood_center_included_amended (g : Graph)
    (sf : SubgraphFilterSpec) (c : GNode)
    (hcu : optStrTruthy sf.center_uid = true)
    (hc : findNode g (sf.center_uid.getD "") = some c)
    (hrows : neighborhoodRows g sf ≠ [])
    (hlim : 1 ≤ sf.limit) :
    c ∈ (get_subgraph g sf).nodes := by
  have htake : ((neighborhoodRows g sf).take sf.limit).isEmpty = false := by
    rcases h : neighborhoodRows g sf with _ | ⟨a, t⟩
    · exact absurd h hrows
    · rcases hl : sf.limit with _ | k
      · omega
      · simp [List.take]
  simp only [get_subgraph, hcu, if_true]
  unfold get_neighborhood
  rw [hc]
  simp only [htake, Bool.false_eq_true, if_false]
  exact List.mem_dedup.2 (List.mem_cons_self _ _)

/-- Witness for C3 amended: a center with one neighbor is returned. -/
theorem neighborhood_center_included_amended_witness :
    (⟨"c", "center", ["T"], none, []⟩ : GNode) ∈
      (get_subgraph
        ⟨[⟨"c", "center", ["T"], none, []⟩, ⟨"b", "bee", ["T"], none, []⟩],
         [⟨"c", "b", "R", 1, none⟩]⟩
        ⟨none, none, some "c", 1, 100⟩).nodes :=
  neighborhood_center_included_amended
    ⟨[⟨"c", "center", ["T"], none, []⟩, ⟨"b", "bee", ["T"], none, []⟩],
     [⟨"c", "b", "R", 1, none⟩]⟩
    ⟨none, none, some "c", 1, 100⟩
    ⟨"c", "center", ["T"], none, []⟩
    (by decide) (by decide) (by decide) (by decide)

/-- C8: in filtered-subgraph mode, every node selected by the node filter
within the limit cap is returned even when no relationship satisfying the
relationship filter is incident to it — it appears with no associated
relationship rather than being dropped. -/
theorem filtered_subgraph_non_pruning (g : Graph)
    (sf : SubgraphFilterSpec) (n : GNode)
    (hcu : optStrTruthy sf.center_uid = false)
    (hn : n ∈ filteredSubgraphNodes g sf)
    (hz : ∀ r ∈ g.rels, filteredSubgraphRelPred g sf r = true →
      r.src ≠ n.uid ∧ r.tgt ≠ n.uid) :
    n ∈ (get_subgraph g sf).nodes ∧
    ∀ r ∈ (get_subgraph g sf).rels, r.src ≠ n.uid ∧ r.tgt ≠ n.uid := by
  simp only [get_subgraph, hcu, Bool.false_eq_true, if_false]
  refine ⟨hn, ?_⟩
  intro r hr
  simp only [get_filtered_subgraph] at hr
  have h1 := List.mem_dedup.1 hr
  have h2 := List.mem_filter.1 h1
  exact hz r h2.1 h2.2

/-- Witness for C8: node `x` matches the label filter, its only incident
relationship leads to a node outside the selection and is therefore not
matched, and `x` is still returned, with no relationship. -/
theorem filtered_subgraph_non_pruning_witness :
    (⟨"x", "ex", ["T"], none, []⟩ : GNode) ∈
      (get_subgraph
        ⟨[⟨"x", "ex", ["T"], none, []⟩, ⟨"y", "why", ["U"], none, []⟩],
         [⟨"x", "y", "R", 1, none⟩]⟩
        ⟨some ⟨some ["T"], none, none, none, 100, 0⟩, none,
          none, 1, 100⟩).nodes ∧
    ∀ r ∈ (get_subgraph
        ⟨[⟨"x", "ex", ["T"], none, []⟩, ⟨"y", "why", ["U"], none, []⟩],
         [⟨"x", "y", "R", 1, none⟩]⟩
        ⟨some ⟨some ["T"], none, none, none, 100, 0⟩, none,
          none, 1, 100⟩).rels,
      r.src ≠ "x" ∧ r.tgt ≠ "x" :=
  filtered_subgraph_non_pruning
    ⟨[⟨"x", "ex", ["T"], none, []⟩, ⟨"y", "why", ["U"], none, []⟩],
     [⟨"x", "y", "R", 1, none⟩]⟩
    ⟨some ⟨some ["T"], none, none, none, 100, 0⟩, none, none, 1, 100⟩
    ⟨"x", "ex", ["T"], none, []⟩
    (by decide) (by decide) (by decide)

end Spec2Proof
